import Mathlib

/-!
Verification of the EasyVPN client-side Session & Connection State Controller.

The repository contains two revisions of the controller:
* `App.vue` with the in-component controller (source `src/unnamed/part_001`):
  `toggleConnection`, `retryConnection`, `fetchAccountData`, and a
  `watch(userStatus)` reconciliation handler.  Embedded in namespace `AppMain`.
* the store-based `App.vue` (source `src/unnamed/part_000`): the proxy health
  monitor timer callback and the `watch(accountStore.userStatus)` reconciliation
  handler, operating on the vpn store's fields.  Embedded in namespace
  `StoreApp`.  The vpn store module itself (`stores/vpn.ts`) is not among the
  provided sources, so its `toggleConnection` is modelled from the spec.

Backend (Tauri `invoke`) calls are made observable: every operation returns,
next to the new state, the list of backend commands it issued, in order.
Logging (`log_to_console` via `logToTerminal`) is included in that list so that
"makes no backend connect/disconnect call" can be stated as the absence of the
specific commands rather than of any command.
-/

namespace EasyVPN

/-- Connection status, `connectionStatus` ref in `part_001` /
`vpnStore.connectionStatus` in `part_000`: one of `"disconnected"`,
`"connected"`, `"failed"`. -/
inductive ConnStatus
  | disconnected
  | connected
  | failed
  deriving DecidableEq, Repr

/-- The fields of the `Account` record (`types/account.ts`) that the
controller logic reads: the entitlement `status` string and the tokens whose
presence encodes the login state. -/
structure Account where
  accessToken : String
  refreshToken : String
  status : String
  deriving DecidableEq, Repr

/-- Backend commands issued through Tauri `invoke`. -/
inductive BackendCall
  | connectVpn
  | disconnectVpn
  | getAccountInfo
  | checkSystemProxy
  | updateAndFetchAccount
  | logToConsole
  deriving DecidableEq, BEq, Repr

/-- Number of connect/disconnect commands in a list of issued backend calls. -/
def cdCount (cs : List BackendCall) : Nat :=
  (cs.filter fun c => c == BackendCall.connectVpn || c == BackendCall.disconnectVpn).length

-- Error message constants from constants/messages.ts.
namespace ErrorMessages

def CONNECTION_FAILED : String := "连接失败，请重试"

def PROXY_ERROR : String := "系统代理异常"

def CLASH_START_FAILED : String := "启动失败，请重启"

def ACCOUNT_STATUS_INVALID : String := "账号状态无效"

def ACCOUNT_CHANGED : String := "账号状态已变更"

end ErrorMessages

namespace AppMain

/-- Which backend call a running `toggleConnection` is awaiting
(the body of its `try` block, `part_001` lines 104-115). -/
inductive BackendOp
  | connectOp
  | disconnectOp
  deriving DecidableEq, Repr

/-- The reactive state of the `part_001` component: `accountData`,
`connectionStatus`, `isLoading`, `errorMessage`; `pending` records the
backend call a suspended `toggleConnection` is awaiting (none when no toggle
is in flight). -/
structure AppState where
  accountData : Option Account
  connectionStatus : ConnStatus
  isLoading : Bool
  errorMessage : String
  pending : Option BackendOp
  deriving DecidableEq, Repr

/-- Initial state: `accountData = null`, `connectionStatus = "disconnected"`,
`isLoading = false`, empty error message, no call in flight. -/
def initState : AppState :=
  { accountData := none
    connectionStatus := ConnStatus.disconnected
    isLoading := false
    errorMessage := ""
    pending := none }

/-- The computed `userStatus` (`part_001` lines 23-26):
`"NO_SERVICE"` when there is no account data or its `status` field is falsy,
otherwise the account's `status`. -/
def userStatus (s : AppState) : String :=
  match s.accountData with
  | none => "NO_SERVICE"
  | some a => if a.status = "" then "NO_SERVICE" else a.status

/-- The `watch(userStatus)` handler (`part_001` lines 240-248): if the
connection is `"connected"` and the new status is neither `"TRIAL"` nor
`"ON_SERVICE"`, set status `"failed"` with the account-changed message.  The
handler body only logs and assigns; it issues no connect/disconnect call. -/
def watchUserStatus (newStatus : String) (s : AppState) : AppState × List BackendCall :=
  if s.connectionStatus = ConnStatus.connected ∧
      newStatus ≠ "TRIAL" ∧ newStatus ≠ "ON_SERVICE" then
    ({ s with connectionStatus := ConnStatus.failed
              errorMessage := ErrorMessages.ACCOUNT_CHANGED },
     [BackendCall.logToConsole])
  else (s, [])

/-- Assignment to `accountData` under Vue reactivity: the watcher on the
computed `userStatus` fires exactly when the computed value changes. -/
def setAccountData (d : Option Account) (s : AppState) : AppState × List BackendCall :=
  let old := userStatus s
  let s1 : AppState := { s with accountData := d }
  if userStatus s1 ≠ old then watchUserStatus (userStatus s1) s1 else (s1, [])

/-- `fetchAccountData` (`part_001` lines 79-88): invoke `get_account_info`;
on success store the response (and log), on failure log and set
`accountData = null`.  `resp = none` is the `catch` branch. -/
def fetchAccountData (resp : Option Account) (s : AppState) : AppState × List BackendCall :=
  match resp with
  | some a =>
    let p := setAccountData (some a) s
    (p.1, BackendCall.getAccountInfo :: BackendCall.logToConsole :: p.2)
  | none =>
    let p := setAccountData none s
    (p.1, BackendCall.getAccountInfo :: BackendCall.logToConsole :: p.2)

/-- Entry of `toggleConnection` (`part_001` lines 91-115) up to and including
the backend `invoke`: the entry log, the `isLoading` re-entrancy guard, the
entitlement guard, then `isLoading = true` and the issue of either
`disconnect_vpn` (when connected) or `connect_vpn`. -/
def toggleConnectionStart (s : AppState) : AppState × List BackendCall :=
  if s.isLoading then (s, [BackendCall.logToConsole])
  else if s.connectionStatus ≠ ConnStatus.connected ∧
      userStatus s ≠ "TRIAL" ∧ userStatus s ≠ "ON_SERVICE" then
    ({ s with connectionStatus := ConnStatus.failed
              errorMessage := ErrorMessages.ACCOUNT_STATUS_INVALID },
     [BackendCall.logToConsole, BackendCall.logToConsole])
  else if s.connectionStatus = ConnStatus.connected then
    ({ s with isLoading := true, pending := some BackendOp.disconnectOp },
     [BackendCall.logToConsole, BackendCall.disconnectVpn])
  else
    ({ s with isLoading := true, pending := some BackendOp.connectOp },
     [BackendCall.logToConsole, BackendCall.connectVpn])

/-- Resumption of `toggleConnection` after the awaited backend call returns
(`part_001` lines 106-127): on success set `"disconnected"` /
`"connected"` according to the issued operation; on failure (`catch`) set
`"failed"` with the connection-failed message; the `finally` clears
`isLoading` on every exit path. -/
def backendComplete (ok : Bool) (s : AppState) : AppState × List BackendCall :=
  match s.pending with
  | none => (s, [])
  | some op =>
    if ok then
      match op with
      | BackendOp.disconnectOp =>
        ({ s with connectionStatus := ConnStatus.disconnected
                  isLoading := false
                  pending := none },
         [BackendCall.logToConsole, BackendCall.logToConsole])
      | BackendOp.connectOp =>
        ({ s with connectionStatus := ConnStatus.connected
                  isLoading := false
                  pending := none },
         [BackendCall.logToConsole, BackendCall.logToConsole])
    else
      ({ s with connectionStatus := ConnStatus.failed
                errorMessage := ErrorMessages.CONNECTION_FAILED
                isLoading := false
                pending := none },
       [BackendCall.logToConsole])

/-- A full `toggleConnection` execution in which the backend call (if one is
issued) returns with outcome `ok` before anything else runs. -/
def toggleConnection (ok : Bool) (s : AppState) : AppState × List BackendCall :=
  let p := toggleConnectionStart s
  if cdCount p.2 = 0 then p
  else
    let q := backendComplete ok p.1
    (q.1, p.2 ++ q.2)

/-- `retryConnection` (`part_001` lines 131-137): clear the error message,
set status `"disconnected"`, then call `toggleConnection`. -/
def retryConnection (ok : Bool) (s : AppState) : AppState × List BackendCall :=
  toggleConnection ok
    { s with errorMessage := "", connectionStatus := ConnStatus.disconnected }

/-- The synchronous prefix of `retryConnection`: the resets followed by the
entry of `toggleConnection` (used in the interleaving model, where the
backend call completes in a later step). -/
def retryStart (s : AppState) : AppState × List BackendCall :=
  toggleConnectionStart
    { s with errorMessage := "", connectionStatus := ConnStatus.disconnected }

/-- Events delivered to the `part_001` component, each running one
synchronous segment of controller code (the segments between `await`
suspension points): starting a toggle or a retry, the return of the awaited
backend call (with success flag), and the installation of new account data
(fetch completion or the `account-status-changed` push event), which fires
the `watch(userStatus)` handler when the computed status changes. -/
inductive Event
  | toggleStart
  | retry
  | backendOk
  | backendErr
  | setAccount (d : Option Account)
  deriving DecidableEq, Repr

/-- A trace accumulator: the current state, the number of connect/disconnect
backend calls issued so far, and the number of those calls that have
returned. -/
structure Trace where
  state : AppState
  started : Nat
  finished : Nat
  deriving DecidableEq, Repr

/-- Initial trace: initial state, no calls issued or returned. -/
def initTrace : Trace :=
  { state := initState, started := 0, finished := 0 }

/-- One event step: the state moves by the corresponding code segment; the
call counters record the connect/disconnect calls the segment issues and the
awaited call a backend-return event completes. -/
def stepT (t : Trace) (e : Event) : Trace :=
  match e with
  | Event.toggleStart =>
    let p := toggleConnectionStart t.state
    { state := p.1, started := t.started + cdCount p.2, finished := t.finished }
  | Event.retry =>
    let p := retryStart t.state
    { state := p.1, started := t.started + cdCount p.2, finished := t.finished }
  | Event.backendOk =>
    let fin := t.finished + (if t.state.pending.isSome then 1 else 0)
    { state := (backendComplete true t.state).1, started := t.started, finished := fin }
  | Event.backendErr =>
    let fin := t.finished + (if t.state.pending.isSome then 1 else 0)
    { state := (backendComplete false t.state).1, started := t.started, finished := fin }
  | Event.setAccount d =>
    let p := setAccountData d t.state
    { state := p.1, started := t.started + cdCount p.2, finished := t.finished }

/-- Run a list of events from the initial trace. -/
def runT (evs : List Event) : Trace :=
  evs.foldl stepT initTrace

/-- Number of connect/disconnect backend calls outstanding (issued but not
yet returned) after a trace. -/
def outstanding (t : Trace) : Nat :=
  t.started - t.finished

end AppMain

namespace StoreApp

/-- The vpn store fields read and written by `part_000`:
`vpnStore.connectionStatus`, `vpnStore.errorMessage`, and the in-flight flag
of the store's `toggleConnection`. -/
structure VpnState where
  connectionStatus : ConnStatus
  errorMessage : String
  isLoading : Bool
  deriving DecidableEq, Repr

/-- Modelled from the spec: the vpn store's `toggleConnection`
(`stores/vpn.ts` is not among the provided sources; §4.1 of the spec).  The
call is a no-op while a toggle is in flight; while `Disconnected` with
entitlement outside Trial/OnService it fails locally with the
entitlement-invalid reason and no backend call; from `Connected` it invokes
backend disconnect (success gives `Disconnected`, failure gives `Failed`
with the connection-failed reason); otherwise it invokes backend connect
(success gives `Connected`, failure gives `Failed`). -/
def vpnToggleConnection (userStatus : String) (ok : Bool) (s : VpnState) :
    VpnState × List BackendCall :=
  if s.isLoading then (s, [])
  else if s.connectionStatus = ConnStatus.disconnected ∧
      userStatus ≠ "TRIAL" ∧ userStatus ≠ "ON_SERVICE" then
    ({ s with connectionStatus := ConnStatus.failed
              errorMessage := ErrorMessages.ACCOUNT_STATUS_INVALID }, [])
  else if s.connectionStatus = ConnStatus.connected then
    if ok then
      ({ s with connectionStatus := ConnStatus.disconnected },
       [BackendCall.disconnectVpn])
    else
      ({ s with connectionStatus := ConnStatus.failed
                errorMessage := ErrorMessages.CONNECTION_FAILED },
       [BackendCall.disconnectVpn])
  else
    if ok then
      ({ s with connectionStatus := ConnStatus.connected },
       [BackendCall.connectVpn])
    else
      ({ s with connectionStatus := ConnStatus.failed
                errorMessage := ErrorMessages.CONNECTION_FAILED },
       [BackendCall.connectVpn])

/-- The `watch(accountStore.userStatus)` handler of `part_000`
(lines 107-122): log; if the new status is `"ON_SERVICE"` or `"TRIAL"` and
the connection is `"failed"`, set it to `"disconnected"`; then, if the
connection is `"connected"` and the new status is neither `"TRIAL"` nor
`"ON_SERVICE"`, call the store's `toggleConnection` (whose eventual backend
outcome is `ok`). -/
def watchUserStatus (newStatus : String) (ok : Bool) (s : VpnState) :
    VpnState × List BackendCall :=
  let s1 :=
    if (newStatus = "ON_SERVICE" ∨ newStatus = "TRIAL") ∧
        s.connectionStatus = ConnStatus.failed then
      { s with connectionStatus := ConnStatus.disconnected }
    else s
  if s1.connectionStatus = ConnStatus.connected ∧
      newStatus ≠ "TRIAL" ∧ newStatus ≠ "ON_SERVICE" then
    let p := vpnToggleConnection newStatus ok s1
    (p.1, BackendCall.logToConsole :: p.2)
  else (s1, [BackendCall.logToConsole])

/-- Result of the `check_system_proxy` backend call as observed at the
`await`: either a returned status value or a thrown error. -/
inductive CheckResult
  | value (v : String)
  | thrown
  deriving DecidableEq, Repr

/-- One tick of the proxy health monitor (`part_000` lines 41-63): while
`"connected"`, invoke `check_system_proxy`; a returned value other than
`"Ok"` sets status `"failed"` with the proxy-error message; a thrown error is
only logged (the `catch` block); while not `"connected"` the check is
skipped.  Every tick ends by invoking the account store's
`updateAndFetchAccount`. -/
def proxyTick (check : CheckResult) (s : VpnState) : VpnState × List BackendCall :=
  if s.connectionStatus = ConnStatus.connected then
    match check with
    | CheckResult.value v =>
      if v ≠ "Ok" then
        ({ s with connectionStatus := ConnStatus.failed
                  errorMessage := ErrorMessages.PROXY_ERROR },
         [BackendCall.checkSystemProxy, BackendCall.logToConsole,
          BackendCall.updateAndFetchAccount])
      else
        (s, [BackendCall.checkSystemProxy, BackendCall.updateAndFetchAccount])
    | CheckResult.thrown =>
      (s, [BackendCall.checkSystemProxy, BackendCall.logToConsole,
           BackendCall.updateAndFetchAccount])
  else (s, [BackendCall.updateAndFetchAccount])

end StoreApp

/-- A concrete account record with the given entitlement status, used for
concrete executions of the controller. -/
def acct (st : String) : Account :=
  { accessToken := "tok", refreshToken := "rtok", status := st }

namespace AppMain

/-- Trace invariant: the in-flight flag agrees with the recorded pending
backend call, and the number of issued connect/disconnect calls exceeds the
number of returned ones by exactly one while a call is pending (zero
otherwise). -/
def InvT (t : Trace) : Prop :=
  t.state.isLoading = t.state.pending.isSome ∧
  t.started = t.finished + (if t.state.pending.isSome then 1 else 0)

/-- Reachable state: fetch delivers an ON_SERVICE account, the user toggles,
the backend connect succeeds — the controller is Connected. -/
def connectedState : AppState :=
  (runT [Event.setAccount (some (acct "ON_SERVICE")), Event.toggleStart,
    Event.backendOk]).state

/-- Reachable state: fetch delivers a TRIAL account, the user toggles (the
backend connect call is issued and still in flight), then a failed fetch
clears the account data — Disconnected, entitlement invalid, toggle in
flight. -/
def inflightDisconnected : AppState :=
  (runT [Event.setAccount (some (acct "TRIAL")), Event.toggleStart,
    Event.setAccount none]).state

/-- Reachable state: a first connect attempt fails (status Failed with the
connection-failed message), the user toggles again (connect call in flight),
then a failed fetch clears the account data — Failed, entitlement invalid,
toggle in flight. -/
def inflightFailed : AppState :=
  (runT [Event.setAccount (some (acct "TRIAL")), Event.toggleStart,
    Event.backendErr, Event.toggleStart, Event.setAccount none]).state

/-- A state with a connect call in flight, used to instantiate the
mutual-exclusion properties. -/
def busyState : AppState :=
  { accountData := none
    connectionStatus := ConnStatus.disconnected
    isLoading := true
    errorMessage := ""
    pending := some BackendOp.connectOp }

end AppMain

namespace StoreApp

/-- A vpn-store state that is Connected with no error. -/
def monConnected : VpnState :=
  { connectionStatus := ConnStatus.connected, errorMessage := "", isLoading := false }

/-- A vpn-store state that is Disconnected. -/
def monDisconnected : VpnState :=
  { connectionStatus := ConnStatus.disconnected, errorMessage := "", isLoading := false }

/-- A vpn-store state that is Failed with the entitlement-invalid message. -/
def monFailed : VpnState :=
  { connectionStatus := ConnStatus.failed
    errorMessage := ErrorMessages.ACCOUNT_STATUS_INVALID
    isLoading := false }

end StoreApp

/-! ## Theorems -/

namespace AppMain

theorem cdCount_nil : cdCount [] = 0 := rfl

theorem cdCount_log : cdCount [BackendCall.logToConsole] = 0 := rfl

theorem cdCount_log_log :
    cdCount [BackendCall.logToConsole, BackendCall.logToConsole] = 0 := rfl

theorem cdCount_log_connect :
    cdCount [BackendCall.logToConsole, BackendCall.connectVpn] = 1 := rfl

theorem cdCount_log_disconnect :
    cdCount [BackendCall.logToConsole, BackendCall.disconnectVpn] = 1 := rfl

theorem watchUserStatus_fields (newStatus : String) (s : AppState) :
    (watchUserStatus newStatus s).1.isLoading = s.isLoading ∧
    (watchUserStatus newStatus s).1.pending = s.pending ∧
    cdCount (watchUserStatus newStatus s).2 = 0 := by
  unfold watchUserStatus
  split
  · exact ⟨rfl, rfl, rfl⟩
  · exact ⟨rfl, rfl, rfl⟩

theorem setAccountData_fields (d : Option Account) (s : AppState) :
    (setAccountData d s).1.isLoading = s.isLoading ∧
    (setAccountData d s).1.pending = s.pending ∧
    cdCount (setAccountData d s).2 = 0 := by
  unfold setAccountData
  dsimp only
  split
  · exact watchUserStatus_fields _ _
  · exact ⟨rfl, rfl, rfl⟩

theorem toggleConnectionStart_inv (s : AppState) (h : s.isLoading = s.pending.isSome) :
    (toggleConnectionStart s).1.isLoading = (toggleConnectionStart s).1.pending.isSome ∧
    (if (toggleConnectionStart s).1.pending.isSome then 1 else 0) =
      (if s.pending.isSome then 1 else 0) + cdCount (toggleConnectionStart s).2 := by
  unfold toggleConnectionStart
  split
  · exact ⟨h, by simp [cdCount_log]⟩
  · split
    · exact ⟨h, by simp [cdCount_log_log]⟩
    · split
      · rename_i hL _ _
        have hp : s.pending = none := by
          cases hpp : s.pending with
          | none => rfl
          | some op => rw [hpp] at h; simp at h; exact absurd h hL
        simp [hp, cdCount_log_disconnect]
      · rename_i hL _ _
        have hp : s.pending = none := by
          cases hpp : s.pending with
          | none => rfl
          | some op => rw [hpp] at h; simp at h; exact absurd h hL
        simp [hp, cdCount_log_connect]

theorem retryStart_inv (s : AppState) (h : s.isLoading = s.pending.isSome) :
    (retryStart s).1.isLoading = (retryStart s).1.pending.isSome ∧
    (if (retryStart s).1.pending.isSome then 1 else 0) =
      (if s.pending.isSome then 1 else 0) + cdCount (retryStart s).2 := by
  unfold retryStart
  exact toggleConnectionStart_inv _ h

theorem invT_stepT (t : Trace) (e : Event) (h : InvT t) : InvT (stepT t e) := by
  obtain ⟨h1, h2⟩ := h
  cases e with
  | toggleStart =>
    obtain ⟨g1, g2⟩ := toggleConnectionStart_inv t.state h1
    exact ⟨g1, by simp only [stepT]; omega⟩
  | retry =>
    obtain ⟨g1, g2⟩ := retryStart_inv t.state h1
    exact ⟨g1, by simp only [stepT]; omega⟩
  | backendOk =>
    cases hp : t.state.pending with
    | none =>
      constructor
      · simp only [stepT, backendComplete, hp]
        exact h1.trans (by rw [hp])
      · simp only [stepT, backendComplete, hp]
        rw [hp] at h2
        simpa using h2
    | some op =>
      have h2' : t.started = t.finished + 1 := by
        rw [hp] at h2
        simpa using h2
      constructor
      · simp only [stepT, backendComplete, hp]
        split <;> cases op <;> simp
      · simp only [stepT, backendComplete, hp]
        split <;> cases op <;> simp_all
  | backendErr =>
    cases hp : t.state.pending with
    | none =>
      constructor
      · simp only [stepT, backendComplete, hp]
        exact h1.trans (by rw [hp])
      · simp only [stepT, backendComplete, hp]
        rw [hp] at h2
        simpa using h2
    | some op =>
      have h2' : t.started = t.finished + 1 := by
        rw [hp] at h2
        simpa using h2
      constructor
      · simp only [stepT, backendComplete, hp]
        split <;> cases op <;> simp
      · simp only [stepT, backendComplete, hp]
        split <;> cases op <;> simp_all
  | setAccount d =>
    obtain ⟨g1, g2, g3⟩ := setAccountData_fields d t.state
    constructor
    · simp only [stepT]
      rw [g1, g2]
      exact h1
    · simp only [stepT]
      simp only [g2, g3]
      omega

theorem invT_foldl (evs : List Event) :
    ∀ t : Trace, InvT t → InvT (List.foldl stepT t evs) := by
  induction evs with
  | nil => intro t h; exact h
  | cons e tl ih => intro t h; exact ih _ (invT_stepT t e h)

theorem invT_runT (evs : List Event) : InvT (runT evs) :=
  invT_foldl evs initTrace ⟨rfl, rfl⟩

/-- Shared helper: with no toggle in flight, a `toggleConnection` call while
the status is not Connected and the entitlement status is neither TRIAL nor
ON_SERVICE takes the entitlement guard branch: Failed with the
entitlement-invalid message, no connect/disconnect call issued. -/
theorem toggle_guard_fires (s : AppState) (ok : Bool)
    (hL : s.isLoading = false)
    (hc : s.connectionStatus ≠ ConnStatus.connected)
    (h1 : userStatus s ≠ "TRIAL") (h2 : userStatus s ≠ "ON_SERVICE") :
    (toggleConnection ok s).1.connectionStatus = ConnStatus.failed ∧
    (toggleConnection ok s).1.errorMessage = ErrorMessages.ACCOUNT_STATUS_INVALID ∧
    cdCount (toggleConnection ok s).2 = 0 := by
  have hg : toggleConnectionStart s =
      ({ s with connectionStatus := ConnStatus.failed
                errorMessage := ErrorMessages.ACCOUNT_STATUS_INVALID },
       [BackendCall.logToConsole, BackendCall.logToConsole]) := by
    unfold toggleConnectionStart
    rw [if_neg (by simp [hL]), if_pos ⟨hc, h1, h2⟩]
  unfold toggleConnection
  rw [hg]
  exact ⟨rfl, rfl, rfl⟩

/-- C1 (amended): for every entitlement change observed while
ConnectionStatus is Connected whose new entitlement status is neither TRIAL
nor ON_SERVICE, the `part_001` controller makes no backend disconnect call
(indeed no connect/disconnect call at all) and the final ConnectionStatus is
Failed with the account-changed reason. -/
theorem C1_reconciliation_failed_no_disconnect (s : AppState) (d : Option Account)
    (hc : s.connectionStatus = ConnStatus.connected)
    (hch : userStatus { s with accountData := d } ≠ userStatus s)
    (h1 : userStatus { s with accountData := d } ≠ "TRIAL")
    (h2 : userStatus { s with accountData := d } ≠ "ON_SERVICE") :
    (setAccountData d s).1.connectionStatus = ConnStatus.failed ∧
    (setAccountData d s).1.errorMessage = ErrorMessages.ACCOUNT_CHANGED ∧
    cdCount (setAccountData d s).2 = 0 := by
  unfold setAccountData
  dsimp only
  split
  · unfold watchUserStatus
    split
    · exact ⟨rfl, rfl, rfl⟩
    · rename_i hcond
      exact absurd ⟨hc, h1, h2⟩ hcond
  · rename_i hcond
    exact absurd hch hcond

/-- C1 witness: at the reachable Connected state with an ON_SERVICE account,
the change to a SERVICE_END account triggers the account-changed failure with
no disconnect call. -/
theorem C1_witness :
    (connectedState.connectionStatus = ConnStatus.connected ∧
     userStatus { connectedState with accountData := some (acct "SERVICE_END") } ≠
       userStatus connectedState) ∧
    ((setAccountData (some (acct "SERVICE_END")) connectedState).1.connectionStatus =
       ConnStatus.failed ∧
     (setAccountData (some (acct "SERVICE_END")) connectedState).1.errorMessage =
       ErrorMessages.ACCOUNT_CHANGED ∧
     cdCount (setAccountData (some (acct "SERVICE_END")) connectedState).2 = 0) :=
  ⟨⟨by decide, by decide⟩,
   C1_reconciliation_failed_no_disconnect connectedState (some (acct "SERVICE_END"))
     (by decide) (by decide) (by decide) (by decide)⟩

/-- C1 counterexample: in the reachable Connected state, the entitlement
change from ON_SERVICE to SERVICE_END sets Failed with the account-changed
reason but issues zero backend disconnect calls, not exactly one as the
claim states. -/
theorem C1_counterexample :
    connectedState.connectionStatus = ConnStatus.connected ∧
    userStatus connectedState = "ON_SERVICE" ∧
    (setAccountData (some (acct "SERVICE_END")) connectedState).1.connectionStatus =
      ConnStatus.failed ∧
    (setAccountData (some (acct "SERVICE_END")) connectedState).1.errorMessage =
      ErrorMessages.ACCOUNT_CHANGED ∧
    ¬ ((setAccountData (some (acct "SERVICE_END")) connectedState).2.count
        BackendCall.disconnectVpn = 1) := by
  decide

/-- C2 (amended): a failed account fetch does not retain the previous
snapshot: the `catch` branch always clears the stored account data to null
(so the entitlement falls back to NO_SERVICE and the login tokens held in
the snapshot are dropped with it). -/
theorem C2_fetch_failure_clears (s : AppState) :
    (fetchAccountData none s).1.accountData = none := by
  unfold fetchAccountData setAccountData
  dsimp only
  split
  · unfold watchUserStatus
    split
    · rfl
    · rfl
  · rfl

/-- C2 counterexample: starting from a state holding a TRIAL account
snapshot, a failed fetch replaces the snapshot by null instead of leaving it
unchanged. -/
theorem C2_counterexample :
    ({ accountData := some (acct "TRIAL"), connectionStatus := ConnStatus.disconnected,
       isLoading := false, errorMessage := "", pending := none } : AppState).accountData =
      some (acct "TRIAL") ∧
    (fetchAccountData none
      { accountData := some (acct "TRIAL"), connectionStatus := ConnStatus.disconnected,
        isLoading := false, errorMessage := "", pending := none }).1.accountData = none ∧
    (fetchAccountData none
      { accountData := some (acct "TRIAL"), connectionStatus := ConnStatus.disconnected,
        isLoading := false, errorMessage := "", pending := none }).1.accountData ≠
      some (acct "TRIAL") := by
  decide

/-- C3 (amended): provided no toggle is in flight, a `toggleConnection` call
made while Disconnected with entitlement status neither TRIAL nor ON_SERVICE
issues no backend connect/disconnect call and terminates Failed with the
entitlement-invalid message. -/
theorem C3_entitlement_guard (s : AppState) (ok : Bool)
    (hL : s.isLoading = false)
    (hd : s.connectionStatus = ConnStatus.disconnected)
    (h1 : userStatus s ≠ "TRIAL") (h2 : userStatus s ≠ "ON_SERVICE") :
    (toggleConnection ok s).1.connectionStatus = ConnStatus.failed ∧
    (toggleConnection ok s).1.errorMessage = ErrorMessages.ACCOUNT_STATUS_INVALID ∧
    cdCount (toggleConnection ok s).2 = 0 :=
  toggle_guard_fires s ok hL (by rw [hd]; exact fun h => ConnStatus.noConfusion h) h1 h2

/-- C3 witness: the initial state is Disconnected with no account data
(entitlement NO_SERVICE); a toggle there fails locally with the
entitlement-invalid message and no backend connect/disconnect call. -/
theorem C3_witness :
    (initState.isLoading = false ∧
     initState.connectionStatus = ConnStatus.disconnected ∧
     userStatus initState ≠ "TRIAL" ∧ userStatus initState ≠ "ON_SERVICE") ∧
    ((toggleConnection true initState).1.connectionStatus = ConnStatus.failed ∧
     (toggleConnection true initState).1.errorMessage =
       ErrorMessages.ACCOUNT_STATUS_INVALID ∧
     cdCount (toggleConnection true initState).2 = 0) :=
  ⟨⟨rfl, rfl, by decide, by decide⟩,
   C3_entitlement_guard initState true rfl rfl (by decide) (by decide)⟩

/-- C3 counterexample: in the reachable state where a connect call is in
flight, the status is Disconnected and the entitlement has become invalid,
a further `toggleConnection` call returns unchanged: it issues no backend
call but does not terminate with ConnectionStatus = Failed, contradicting
the claim's unconditional conclusion. -/
theorem C3_counterexample :
    inflightDisconnected.connectionStatus = ConnStatus.disconnected ∧
    userStatus inflightDisconnected ≠ "TRIAL" ∧
    userStatus inflightDisconnected ≠ "ON_SERVICE" ∧
    (toggleConnection true inflightDisconnected).1 = inflightDisconnected ∧
    cdCount (toggleConnection true inflightDisconnected).2 = 0 ∧
    ¬ ((toggleConnection true inflightDisconnected).1.connectionStatus =
        ConnStatus.failed) := by
  decide

/-- C4: for every sequence of controller events, at most one backend
connect/disconnect call is outstanding at any instant; a `toggleConnection`
call made while the in-flight flag is set returns with the state unchanged
and no connect/disconnect call issued; and the in-flight flag is cleared on
every exit path of the awaited backend call (success and failure alike). -/
theorem C4_mutual_exclusion :
    (∀ evs : List Event, outstanding (runT evs) ≤ 1) ∧
    (∀ (ok : Bool) (s : AppState), s.isLoading = true →
      (toggleConnection ok s).1 = s ∧ cdCount (toggleConnection ok s).2 = 0) ∧
    (∀ (ok : Bool) (s : AppState), s.pending.isSome = true →
      (backendComplete ok s).1.isLoading = false) := by
  refine ⟨?_, ?_, ?_⟩
  · intro evs
    obtain ⟨h1, h2⟩ := invT_runT evs
    have hc : (if (runT evs).state.pending.isSome then 1 else 0) ≤ 1 := by
      split <;> simp
    unfold outstanding
    omega
  · intro ok s hL
    have hg : toggleConnectionStart s = (s, [BackendCall.logToConsole]) := by
      unfold toggleConnectionStart
      rw [if_pos hL]
    unfold toggleConnection
    rw [hg]
    exact ⟨rfl, rfl⟩
  · intro ok s hp
    obtain ⟨op, hop⟩ := Option.isSome_iff_exists.mp hp
    cases ok <;> cases op <;> simp [backendComplete, hop]

/-- Shared helper: while a toggle is in flight, `toggleConnection` returns
after the entry log without touching the state. -/
theorem toggleConnectionStart_busy (s : AppState) (hL : s.isLoading = true) :
    toggleConnectionStart s = (s, [BackendCall.logToConsole]) := by
  unfold toggleConnectionStart
  rw [if_pos hL]

/-- Shared helper: the guard branch of `toggleConnection` as an equation. -/
theorem toggleConnectionStart_guard (s : AppState)
    (hL : s.isLoading = false)
    (hc : s.connectionStatus ≠ ConnStatus.connected)
    (h1 : userStatus s ≠ "TRIAL") (h2 : userStatus s ≠ "ON_SERVICE") :
    toggleConnectionStart s =
      ({ s with connectionStatus := ConnStatus.failed
                errorMessage := ErrorMessages.ACCOUNT_STATUS_INVALID },
       [BackendCall.logToConsole, BackendCall.logToConsole]) := by
  unfold toggleConnectionStart
  rw [if_neg (by simp [hL]), if_pos ⟨hc, h1, h2⟩]

/-- Shared helper: with no toggle in flight, status not Connected and
entitlement permitting, `toggleConnection` issues the backend connect
call. -/
theorem toggleConnectionStart_connects (s : AppState)
    (hL : s.isLoading = false)
    (hc : s.connectionStatus ≠ ConnStatus.connected)
    (he : userStatus s = "TRIAL" ∨ userStatus s = "ON_SERVICE") :
    toggleConnectionStart s =
      ({ s with isLoading := true, pending := some BackendOp.connectOp },
       [BackendCall.logToConsole, BackendCall.connectVpn]) := by
  unfold toggleConnectionStart
  rw [if_neg (by simp [hL]),
    if_neg (by
      rintro ⟨-, hT, hO⟩
      cases he with
      | inl h => exact hT h
      | inr h => exact hO h),
    if_neg hc]

/-- Shared helper: with no toggle in flight and status Connected,
`toggleConnection` issues the backend disconnect call. -/
theorem toggleConnectionStart_disconnects (s : AppState)
    (hL : s.isLoading = false)
    (hc : s.connectionStatus = ConnStatus.connected) :
    toggleConnectionStart s =
      ({ s with isLoading := true, pending := some BackendOp.disconnectOp },
       [BackendCall.logToConsole, BackendCall.disconnectVpn]) := by
  unfold toggleConnectionStart
  rw [if_neg (by simp [hL]), if_neg (by rintro ⟨h, -⟩; exact h hc), if_pos hc]

/-- C4 witness: a concrete trace and a concrete in-flight state
instantiating the three mutual-exclusion properties. -/
theorem C4_witness :
    outstanding (runT [Event.setAccount (some (acct "TRIAL")), Event.toggleStart]) ≤ 1 ∧
    (busyState.isLoading = true ∧
     (toggleConnection true busyState).1 = busyState ∧
     cdCount (toggleConnection true busyState).2 = 0) ∧
    (busyState.pending.isSome = true ∧
     (backendComplete false busyState).1.isLoading = false) :=
  ⟨C4_mutual_exclusion.1 _,
   ⟨rfl, C4_mutual_exclusion.2.1 true busyState rfl⟩,
   ⟨rfl, C4_mutual_exclusion.2.2 false busyState rfl⟩⟩

/-- C7: `retryConnection` clears the error message and forces status
Disconnected, then invokes `toggleConnection`; called from Failed with
entitlement permitting connection and no toggle in flight, it issues exactly
one backend connect call and no disconnect call, whatever the backend
outcome. -/
theorem C7_retry_single_connect (s : AppState) (ok : Bool)
    (hL : s.isLoading = false)
    (_hf : s.connectionStatus = ConnStatus.failed)
    (he : userStatus s = "TRIAL" ∨ userStatus s = "ON_SERVICE") :
    retryConnection ok s =
      toggleConnection ok
        { s with errorMessage := "", connectionStatus := ConnStatus.disconnected } ∧
    (retryConnection ok s).2.count BackendCall.connectVpn = 1 ∧
    (retryConnection ok s).2.count BackendCall.disconnectVpn = 0 := by
  have hstart := toggleConnectionStart_connects
    { s with errorMessage := "", connectionStatus := ConnStatus.disconnected }
    hL (fun h => ConnStatus.noConfusion h) he
  have hcalls : (retryConnection ok s).2 =
      [BackendCall.logToConsole, BackendCall.connectVpn] ++
        (if ok then [BackendCall.logToConsole, BackendCall.logToConsole]
         else [BackendCall.logToConsole]) := by
    unfold retryConnection toggleConnection
    rw [hstart]
    cases ok with
    | true => rfl
    | false => rfl
  refine ⟨rfl, ?_, ?_⟩ <;> rw [hcalls] <;> cases ok <;> decide

/-- C7 witness: from a concrete Failed state with a TRIAL account,
`retryConnection` issues exactly one backend connect call. -/
theorem C7_witness :
    (({ accountData := some (acct "TRIAL"), connectionStatus := ConnStatus.failed,
        isLoading := false, errorMessage := ErrorMessages.CONNECTION_FAILED,
        pending := none } : AppState).isLoading = false ∧
     ({ accountData := some (acct "TRIAL"), connectionStatus := ConnStatus.failed,
        isLoading := false, errorMessage := ErrorMessages.CONNECTION_FAILED,
        pending := none } : AppState).connectionStatus = ConnStatus.failed ∧
     userStatus
       { accountData := some (acct "TRIAL"), connectionStatus := ConnStatus.failed,
         isLoading := false, errorMessage := ErrorMessages.CONNECTION_FAILED,
         pending := none } = "TRIAL") ∧
    ((retryConnection true
       { accountData := some (acct "TRIAL"), connectionStatus := ConnStatus.failed,
         isLoading := false, errorMessage := ErrorMessages.CONNECTION_FAILED,
         pending := none }).2.count BackendCall.connectVpn = 1 ∧
     (retryConnection true
       { accountData := some (acct "TRIAL"), connectionStatus := ConnStatus.failed,
         isLoading := false, errorMessage := ErrorMessages.CONNECTION_FAILED,
         pending := none }).2.count BackendCall.disconnectVpn = 0) :=
  ⟨⟨rfl, rfl, by decide⟩,
   (C7_retry_single_connect
     { accountData := some (acct "TRIAL"), connectionStatus := ConnStatus.failed,
       isLoading := false, errorMessage := ErrorMessages.CONNECTION_FAILED,
       pending := none } true rfl rfl (Or.inl (by decide))).2⟩

/-- C9: from any state where entitlement permits connection, no toggle is in
flight and the status is not Connected, a `toggleConnection` whose backend
connect succeeds leaves status Connected, and a subsequent `toggleConnection`
whose backend disconnect succeeds leaves status Disconnected; each leg issues
exactly one call of its kind. -/
theorem C9_connect_disconnect_roundtrip (s : AppState)
    (hL : s.isLoading = false)
    (hc : s.connectionStatus ≠ ConnStatus.connected)
    (he : userStatus s = "TRIAL" ∨ userStatus s = "ON_SERVICE") :
    (toggleConnection true s).1.connectionStatus = ConnStatus.connected ∧
    (toggleConnection true (toggleConnection true s).1).1.connectionStatus =
      ConnStatus.disconnected ∧
    (toggleConnection true s).2.count BackendCall.connectVpn = 1 ∧
    (toggleConnection true (toggleConnection true s).1).2.count
      BackendCall.disconnectVpn = 1 := by
  have hstart := toggleConnectionStart_connects s hL hc he
  have h1 : toggleConnection true s =
      ({ s with connectionStatus := ConnStatus.connected
                isLoading := false
                pending := none },
       [BackendCall.logToConsole, BackendCall.connectVpn,
        BackendCall.logToConsole, BackendCall.logToConsole]) := by
    unfold toggleConnection
    rw [hstart]
    rfl
  have hstart2 := toggleConnectionStart_disconnects
    { s with connectionStatus := ConnStatus.connected
             isLoading := false
             pending := none } rfl rfl
  have h2 : toggleConnection true
      { s with connectionStatus := ConnStatus.connected
               isLoading := false
               pending := none } =
      ({ s with connectionStatus := ConnStatus.disconnected
                isLoading := false
                pending := none },
       [BackendCall.logToConsole, BackendCall.disconnectVpn,
        BackendCall.logToConsole, BackendCall.logToConsole]) := by
    unfold toggleConnection
    rw [hstart2]
    rfl
  refine ⟨?_, ?_, ?_, ?_⟩
  · rw [h1]
  · rw [h1, h2]
  · rw [h1]
    rfl
  · rw [h1, h2]
    rfl

/-- C9 witness: with a TRIAL account from Disconnected, connect then
disconnect (both succeeding) round-trips back to Disconnected. -/
theorem C9_witness :
    (({ accountData := some (acct "TRIAL"), connectionStatus := ConnStatus.disconnected,
        isLoading := false, errorMessage := "", pending := none } : AppState).isLoading =
       false ∧
     userStatus
       { accountData := some (acct "TRIAL"), connectionStatus := ConnStatus.disconnected,
         isLoading := false, errorMessage := "", pending := none } = "TRIAL") ∧
    ((toggleConnection true
        { accountData := some (acct "TRIAL"), connectionStatus := ConnStatus.disconnected,
          isLoading := false, errorMessage := "", pending := none }).1.connectionStatus =
       ConnStatus.connected ∧
     (toggleConnection true
        (toggleConnection true
          { accountData := some (acct "TRIAL"), connectionStatus := ConnStatus.disconnected,
            isLoading := false, errorMessage := "",
            pending := none }).1).1.connectionStatus = ConnStatus.disconnected) :=
  ⟨⟨rfl, by decide⟩,
   ⟨(C9_connect_disconnect_roundtrip
       { accountData := some (acct "TRIAL"), connectionStatus := ConnStatus.disconnected,
         isLoading := false, errorMessage := "", pending := none }
       rfl (by decide) (Or.inl (by decide))).1,
    (C9_connect_disconnect_roundtrip
       { accountData := some (acct "TRIAL"), connectionStatus := ConnStatus.disconnected,
         isLoading := false, errorMessage := "", pending := none }
       rfl (by decide) (Or.inl (by decide))).2.1⟩⟩

/-- C10 (amended): provided no toggle is in flight, the entitlement guard of
`toggleConnection` applies whenever the status is not Connected (Failed
included): with entitlement outside TRIAL/ON_SERVICE the call sets Failed
with the entitlement-invalid message and issues no backend call; moreover
`retryConnection` under invalid entitlement never issues a backend connect
call, whether or not a toggle is in flight. -/
theorem C10_guard_covers_failed :
    (∀ (s : AppState) (ok : Bool), s.isLoading = false →
      s.connectionStatus ≠ ConnStatus.connected →
      userStatus s ≠ "TRIAL" → userStatus s ≠ "ON_SERVICE" →
      (toggleConnection ok s).1.connectionStatus = ConnStatus.failed ∧
      (toggleConnection ok s).1.errorMessage = ErrorMessages.ACCOUNT_STATUS_INVALID ∧
      cdCount (toggleConnection ok s).2 = 0) ∧
    (∀ (s : AppState) (ok : Bool),
      userStatus s ≠ "TRIAL" → userStatus s ≠ "ON_SERVICE" →
      (retryConnection ok s).2.count BackendCall.connectVpn = 0) := by
  constructor
  · intro s ok hL hc h1 h2
    exact toggle_guard_fires s ok hL hc h1 h2
  · intro s ok h1 h2
    cases hL : s.isLoading with
    | true =>
      have hg := toggleConnectionStart_busy
        { s with errorMessage := "", connectionStatus := ConnStatus.disconnected } hL
      unfold retryConnection toggleConnection
      rw [hg]
      rfl
    | false =>
      have hg := toggleConnectionStart_guard
        { s with errorMessage := "", connectionStatus := ConnStatus.disconnected }
        hL (fun h => ConnStatus.noConfusion h) h1 h2
      unfold retryConnection toggleConnection
      rw [hg]
      rfl

/-- C10 witness: a toggle from a concrete Failed state with no account data
takes the entitlement guard, and a retry from the initial state with no
account data issues no connect call. -/
theorem C10_witness :
    (({ accountData := none, connectionStatus := ConnStatus.failed, isLoading := false,
        errorMessage := ErrorMessages.CONNECTION_FAILED, pending := none } :
        AppState).connectionStatus ≠ ConnStatus.connected ∧
     (toggleConnection false
        { accountData := none, connectionStatus := ConnStatus.failed, isLoading := false,
          errorMessage := ErrorMessages.CONNECTION_FAILED,
          pending := none }).1.connectionStatus = ConnStatus.failed ∧
     (toggleConnection false
        { accountData := none, connectionStatus := ConnStatus.failed, isLoading := false,
          errorMessage := ErrorMessages.CONNECTION_FAILED,
          pending := none }).1.errorMessage = ErrorMessages.ACCOUNT_STATUS_INVALID) ∧
    (retryConnection true initState).2.count BackendCall.connectVpn = 0 :=
  ⟨⟨by decide,
    (C10_guard_covers_failed.1
      { accountData := none, connectionStatus := ConnStatus.failed, isLoading := false,
        errorMessage := ErrorMessages.CONNECTION_FAILED, pending := none }
      false rfl (by decide) (by decide) (by decide)).1,
    (C10_guard_covers_failed.1
      { accountData := none, connectionStatus := ConnStatus.failed, isLoading := false,
        errorMessage := ErrorMessages.CONNECTION_FAILED, pending := none }
      false rfl (by decide) (by decide) (by decide)).2.1⟩,
   C10_guard_covers_failed.2 initState true (by decide) (by decide)⟩

/-- C10 counterexample: in the reachable state where a connect call is in
flight, the status is Failed (with the connection-failed message) and the
entitlement is invalid, a `toggleConnection` call returns unchanged: no
backend call, but the entitlement-invalid message is not set, contradicting
the claim's unconditional conclusion. -/
theorem C10_counterexample :
    inflightFailed.connectionStatus = ConnStatus.failed ∧
    userStatus inflightFailed ≠ "TRIAL" ∧
    userStatus inflightFailed ≠ "ON_SERVICE" ∧
    (toggleConnection true inflightFailed).1 = inflightFailed ∧
    cdCount (toggleConnection true inflightFailed).2 = 0 ∧
    ¬ ((toggleConnection true inflightFailed).1.errorMessage =
        ErrorMessages.ACCOUNT_STATUS_INVALID) := by
  decide

end AppMain

namespace StoreApp

/-- C5: on a proxy health monitor tick while Connected, a proxy-check result
other than "Ok" forces Failed with the proxy-error reason; the monitor never
issues a disconnect call; and while not Connected the proxy check is not
invoked at all. -/
theorem C5_proxy_health_monitor :
    (∀ (s : VpnState) (v : String), s.connectionStatus = ConnStatus.connected →
      v ≠ "Ok" →
      (proxyTick (CheckResult.value v) s).1.connectionStatus = ConnStatus.failed ∧
      (proxyTick (CheckResult.value v) s).1.errorMessage = ErrorMessages.PROXY_ERROR) ∧
    (∀ (s : VpnState) (c : CheckResult),
      BackendCall.disconnectVpn ∉ (proxyTick c s).2) ∧
    (∀ (s : VpnState) (c : CheckResult), s.connectionStatus ≠ ConnStatus.connected →
      BackendCall.checkSystemProxy ∉ (proxyTick c s).2) := by
  refine ⟨?_, ?_, ?_⟩
  · intro s v hc hv
    unfold proxyTick
    rw [if_pos hc]
    dsimp only
    rw [if_pos hv]
    exact ⟨rfl, rfl⟩
  · intro s c
    unfold proxyTick
    split
    · cases c with
      | value v =>
        dsimp only
        split
        · simp
        · simp
      | thrown => simp
    · simp
  · intro s c hc
    unfold proxyTick
    rw [if_neg hc]
    simp

/-- C5 witness: a non-Ok check value on a Connected state forces the
proxy-error failure with no disconnect call, and on a Disconnected state the
proxy check is not among the issued calls. -/
theorem C5_witness :
    (monConnected.connectionStatus = ConnStatus.connected ∧
     (proxyTick (CheckResult.value "SystemProxyNotEnabled")
        monConnected).1.connectionStatus = ConnStatus.failed ∧
     (proxyTick (CheckResult.value "SystemProxyNotEnabled")
        monConnected).1.errorMessage = ErrorMessages.PROXY_ERROR) ∧
    BackendCall.disconnectVpn ∉
      (proxyTick (CheckResult.value "SystemProxyNotEnabled") monConnected).2 ∧
    (monDisconnected.connectionStatus ≠ ConnStatus.connected ∧
     BackendCall.checkSystemProxy ∉
       (proxyTick (CheckResult.value "SystemProxyNotEnabled") monDisconnected).2) :=
  ⟨⟨rfl,
    (C5_proxy_health_monitor.1 monConnected "SystemProxyNotEnabled" rfl (by decide)).1,
    (C5_proxy_health_monitor.1 monConnected "SystemProxyNotEnabled" rfl (by decide)).2⟩,
   C5_proxy_health_monitor.2.1 monConnected (CheckResult.value "SystemProxyNotEnabled"),
   ⟨by decide,
    C5_proxy_health_monitor.2.2 monDisconnected
      (CheckResult.value "SystemProxyNotEnabled") (by decide)⟩⟩

/-- C6 (amended): when the proxy check throws while Connected, the monitor
tick only logs the failure: ConnectionStatus and the error message are left
unchanged and no disconnect call is made; only a returned non-Ok value
forces Failed with the proxy-error reason. -/
theorem C6_thrown_check_only_logged (s : VpnState)
    (hc : s.connectionStatus = ConnStatus.connected) :
    (proxyTick CheckResult.thrown s).1 = s ∧
    BackendCall.disconnectVpn ∉ (proxyTick CheckResult.thrown s).2 := by
  unfold proxyTick
  rw [if_pos hc]
  exact ⟨rfl, by simp⟩

/-- C6 witness: on a concrete Connected state a thrown proxy check leaves
the state untouched. -/
theorem C6_witness :
    monConnected.connectionStatus = ConnStatus.connected ∧
    (proxyTick CheckResult.thrown monConnected).1 = monConnected ∧
    BackendCall.disconnectVpn ∉ (proxyTick CheckResult.thrown monConnected).2 :=
  ⟨rfl,
   (C6_thrown_check_only_logged monConnected rfl).1,
   (C6_thrown_check_only_logged monConnected rfl).2⟩

/-- C6 counterexample: while Connected, a thrown proxy check leaves
ConnectionStatus = Connected with the error message unchanged — it does not
become Failed with the proxy-error reason as the claim states. -/
theorem C6_counterexample :
    monConnected.connectionStatus = ConnStatus.connected ∧
    (proxyTick CheckResult.thrown monConnected).1.connectionStatus =
      ConnStatus.connected ∧
    ¬ ((proxyTick CheckResult.thrown monConnected).1.connectionStatus =
        ConnStatus.failed) ∧
    ¬ ((proxyTick CheckResult.thrown monConnected).1.errorMessage =
        ErrorMessages.PROXY_ERROR) := by
  decide

/-- C8: an entitlement change to TRIAL or ON_SERVICE while the vpn store is
Failed sets the status to Disconnected with no backend connect/disconnect
call; and whenever the status is not Connected, the reconciliation watch
never makes it Connected (no auto-reconnect without an explicit toggle). -/
theorem C8_regained_entitlement_no_autoconnect :
    (∀ (s : VpnState) (newStatus : String) (ok : Bool),
      (newStatus = "TRIAL" ∨ newStatus = "ON_SERVICE") →
      s.connectionStatus = ConnStatus.failed →
      (watchUserStatus newStatus ok s).1.connectionStatus = ConnStatus.disconnected ∧
      cdCount (watchUserStatus newStatus ok s).2 = 0) ∧
    (∀ (s : VpnState) (newStatus : String) (ok : Bool),
      s.connectionStatus ≠ ConnStatus.connected →
      (watchUserStatus newStatus ok s).1.connectionStatus ≠ ConnStatus.connected) := by
  constructor
  · intro s newStatus ok he hf
    have hcond : (newStatus = "ON_SERVICE" ∨ newStatus = "TRIAL") ∧
        s.connectionStatus = ConnStatus.failed :=
      ⟨he.elim (fun h => Or.inr h) (fun h => Or.inl h), hf⟩
    unfold watchUserStatus
    dsimp only
    rw [if_pos hcond, if_neg (by rintro ⟨h, -⟩; exact ConnStatus.noConfusion h)]
    exact ⟨rfl, rfl⟩
  · intro s newStatus ok hc
    unfold watchUserStatus
    dsimp only
    by_cases h1 : (newStatus = "ON_SERVICE" ∨ newStatus = "TRIAL") ∧
        s.connectionStatus = ConnStatus.failed
    · rw [if_pos h1, if_neg (by rintro ⟨h, -⟩; exact ConnStatus.noConfusion h)]
      exact fun h => ConnStatus.noConfusion h
    · rw [if_neg h1]
      by_cases h2 : s.connectionStatus = ConnStatus.connected ∧
          newStatus ≠ "TRIAL" ∧ newStatus ≠ "ON_SERVICE"
      · exact absurd h2.1 hc
      · rw [if_neg h2]
        exact hc

/-- C8 witness: the change to TRIAL while Failed(entitlement-invalid) clears
the failure to Disconnected with no backend call, and does not connect. -/
theorem C8_witness :
    (monFailed.connectionStatus = ConnStatus.failed ∧
     (watchUserStatus "TRIAL" true monFailed).1.connectionStatus =
       ConnStatus.disconnected ∧
     cdCount (watchUserStatus "TRIAL" true monFailed).2 = 0) ∧
    (monFailed.connectionStatus ≠ ConnStatus.connected ∧
     (watchUserStatus "TRIAL" true monFailed).1.connectionStatus ≠
       ConnStatus.connected) :=
  ⟨⟨rfl,
    (C8_regained_entitlement_no_autoconnect.1 monFailed "TRIAL" true
      (Or.inl rfl) rfl).1,
    (C8_regained_entitlement_no_autoconnect.1 monFailed "TRIAL" true
      (Or.inl rfl) rfl).2⟩,
   ⟨by decide,
    C8_regained_entitlement_no_autoconnect.2 monFailed "TRIAL" true (by decide)⟩⟩

end StoreApp

end EasyVPN
